import Mathlib

/-
Verification of the X11 event-processor core of the winit repository
(`src/platform_impl/linux/x11/event_processor.rs`, with the legacy scroll handling in
`src/platform/linux/x11/mod.rs`).

The Rust handlers are shallowly embedded as pure Lean functions: the mutable
`EventProcessor` / `SharedState` / `Dnd` fields become explicit state records, the
application callback becomes a list of emitted normalized events, and the external X11
round trips (frame-extents query, monitor lookup, DPI adjustment, selection reads,
hardware key-state query) become explicit environment parameters.
-/

set_option autoImplicit false

namespace WinitX11

/-- Normalized window/application events emitted by the event processor (the
`WindowEvent` payloads relevant to the verified handlers, with only the fields the
proofs inspect). -/
inductive WEvent where
  | moved (pos : Int × Int)
  | scaleFactorChanged (scaleFactor : ℚ)
  | surfaceResized (size : Nat × Nat)
  | focused (focus : Bool)
  | keyboardInput (pressed : Bool) (keycode : Nat) (isSynthetic : Bool)
  | modifiersChanged (mods : Nat)
  | pointerMoved
  | dragEntered
  | dragMoved
  | dragLeft
  | dragDropped
  | pointerButton (pressed : Bool) (button : Nat)
  | mouseWheel (dx dy : ℚ)
  deriving DecidableEq, Repr

/-- Device-scoped events (`DeviceEvent`) emitted by the raw handlers. -/
inductive DEvent where
  | button (pressed : Bool) (button : Nat)
  deriving DecidableEq, Repr

/-- `EventProcessor::send_modifiers` (event_processor.rs:1662): `Cell::replace` stores
the new canonical modifiers unconditionally; a `ModifiersChanged` event (carrying the
freshly stored value) is emitted iff the old value differed or `force` is set.
Modifier state is a bitmask, embedded as `Nat`. Returns (stored value, emitted event). -/
def send_modifiers (lastSent modifiers : Nat) (force : Bool) : Nat × Option WEvent :=
  let old := lastSent
  let stored := modifiers
  if old ≠ modifiers ∨ force = true then (stored, some (WEvent.modifiersChanged stored))
  else (stored, none)

/-- Modelled from the spec: the helper `util::maybe_change` is not under the analyzed
sources; per the spec's cached-size/position comparisons it stores `value` into the
cached optional `field` and reports whether the cache changed. -/
def maybe_change {α : Type} [DecidableEq α] (field : Option α) (value : α) :
    Option α × Bool :=
  if field = some value then (field, false) else (some value, true)

/-- Frame extents used by `configure_notify`. The `FrameExtentsHeuristic` type is not
under the analyzed sources. Modelled from the spec: `inner_pos_to_outer` converts the
client-area (inner) position into the frame-inclusive (outer) position by the cached
border offsets. -/
structure FrameExtents where
  left : Int
  top : Int
  deriving DecidableEq, Repr

/-- Modelled from the spec: outer (frame-inclusive) position from the inner position. -/
def inner_pos_to_outer (fe : FrameExtents) (pos : Int × Int) : Int × Int :=
  (pos.1 - fe.left, pos.2 - fe.top)

/-- The per-window `SharedState` fields read and written by `configure_notify`. -/
structure SharedState where
  size : Option (Nat × Nat)
  innerPosition : Option (Int × Int)
  innerPositionRelParent : Option (Int × Int)
  position : Option (Int × Int)
  frameExtents : Option FrameExtents
  dpiAdjusted : Option (Nat × Nat)
  lastMonitorScale : ℚ
  deriving DecidableEq, Repr

/-- The external round trips `configure_notify` performs, as an explicit environment:
the frame-extents heuristic query, the monitor lookup (`none` models the dummy
monitor), the `Window::adjust_for_dpi` result, the surface size the application wrote
through `SurfaceSizeWriter` during the `ScaleFactorChanged` callback (`none` = the
application kept the adjusted default), and the window-manager name check. -/
structure ConfigureEnv where
  queriedFrameExtents : FrameExtents
  monitor : Option ℚ
  dpiAdjust : Nat × Nat
  negotiatedSize : Option (Nat × Nat)
  wmIsXfwm : Bool
  deriving DecidableEq, Repr

/-- `EventProcessor::configure_notify` (event_processor.rs:581) for a live window:
detects size and position changes against the cached shared state, recomputes the
outer position from frame extents when needed (emitting `Moved` iff the synthetic
root-relative position changed), runs the scale-factor change negotiation, applies the
Xfwm DPI-adjustment hack, and emits `SurfaceResized` when the size changed or the DPI
path forced a resize. Returns the updated shared state and the emitted events in
callback order. -/
def configure_notify (env : ConfigureEnv) (s0 : SharedState) (isSynthetic : Bool)
    (newInnerPosition : Int × Int) (newSurfaceSize : Nat × Nat) :
    SharedState × List WEvent :=
  let r0 := maybe_change s0.size newSurfaceSize
  let s1 := { s0 with size := r0.1 }
  let resized0 := r0.2
  let sm :=
    if isSynthetic then
      let r := maybe_change s1.innerPosition newInnerPosition
      ({ s1 with innerPosition := r.1 }, r.2)
    else
      -- Not synthetic: the reported position is relative to the parent; detect frame
      -- extent changes and never emit `Moved` from it.
      let r := maybe_change s1.innerPositionRelParent newInnerPosition
      let s2 := { s1 with innerPositionRelParent := r.1 }
      if r.2 then ({ s2 with innerPosition := none, frameExtents := none }, false)
      else (s2, false)
  let s2 := sm.1
  let moved := sm.2
  let so : SharedState × (Int × Int) × List WEvent :=
    match s2.position, moved with
    | some position, false => (s2, position, [])
    | _, _ =>
      let fe := s2.frameExtents.getD env.queriedFrameExtents
      let outer := inner_pos_to_outer fe newInnerPosition
      let s3 := { s2 with frameExtents := some fe, position := some outer }
      (s3, outer, if moved then [WEvent.moved outer] else [])
  let s3 := so.1
  let movedEvents := so.2.2
  let sd : SharedState × Bool × List WEvent :=
    if isSynthetic then
      let wh := s3.dpiAdjusted.getD newSurfaceSize
      let lastScaleFactor := s3.lastMonitorScale
      let sm2 :=
        match env.monitor with
        | none => (s3, lastScaleFactor)
        | some scaleFactor => ({ s3 with lastMonitorScale := scaleFactor }, scaleFactor)
      let s4 := sm2.1
      let newScaleFactor := sm2.2
      if lastScaleFactor ≠ newScaleFactor then
        let oldSurfaceSize := wh
        let negotiated := env.negotiatedSize.getD env.dpiAdjust
        if negotiated ≠ oldSurfaceSize then
          ({ s4 with dpiAdjusted := some negotiated }, true,
            [WEvent.scaleFactorChanged newScaleFactor])
        else (s4, false, [WEvent.scaleFactorChanged newScaleFactor])
      else (s4, false, [])
    else (s3, false, [])
  let s4 := sd.1
  let resized1 := sd.2.1
  let dpiEvents := sd.2.2
  let s5 :=
    match s4.dpiAdjusted with
    | some adjustedSize =>
      if newSurfaceSize = adjustedSize ∨ env.wmIsXfwm = false then
        { s4 with dpiAdjusted := none }
      else s4
    | none => s4
  let resized := resized0 || resized1
  let resizeEvents := if resized then [WEvent.surfaceResized newSurfaceSize] else []
  (s5, movedEvents ++ dpiEvents ++ resizeEvents)

/-- The condition under which the scale-factor path of `configure_notify` forces a
resize: the event is synthetic, the monitor lookup reports a scale factor differing
from the cached one, and the negotiated surface size differs from the previous one. -/
def dpiForcedResize (env : ConfigureEnv) (s : SharedState) (newSurfaceSize : Nat × Nat)
    (isSynthetic : Bool) : Prop :=
  isSynthetic = true ∧
    ∃ scaleFactor, env.monitor = some scaleFactor ∧ s.lastMonitorScale ≠ scaleFactor ∧
      env.negotiatedSize.getD env.dpiAdjust ≠ s.dpiAdjusted.getD newSurfaceSize

/-- Drag-and-drop session state. The `Dnd` struct itself is not under the analyzed
sources (only its handlers in `EventProcessor::client_message` and
`EventProcessor::selection_notify` are); its field set follows the spec's `DndSession`:
protocol version, type list, source window, last position, pending read result,
dragging flag. Atoms and paths are embedded as `Nat`; `result = some (some paths)`
models a cached successful parse, `some none` a cached parse error.
`pendingSelection` is a ghost flag recording that `convert_selection` was issued and
its `SelectionNotify` answer is still outstanding; it is used to state which event
sequences are protocol-conformant. -/
structure DndState where
  version : Option Int
  typeList : Option (List Nat)
  sourceWindow : Option Nat
  position : Int × Int
  result : Option (Option (List Nat))
  dragging : Bool
  pendingSelection : Bool
  deriving DecidableEq, Repr

/-- Modelled from the spec: `Dnd::reset` is not under the analyzed sources; the spec
says resetting destroys the session (version, type list, source window, position,
pending result, dragging flag). The in-flight-selection ghost flag is not session
state and is kept. -/
def dndReset (dnd : DndState) : DndState :=
  { version := none, typeList := none, sourceWindow := none, position := (0, 0),
    result := none, dragging := false, pendingSelection := dnd.pendingSelection }

/-- Status/finished messages sent back to the drag source peer. -/
inductive DndReply where
  | status (accepted : Bool)
  | finished (accepted : Bool)
  deriving DecidableEq, Repr

/-- An output of a drag-and-drop handler: either a protocol reply to the peer or a
normalized event delivered to the application callback. -/
inductive DndOut where
  | reply (r : DndReply)
  | event (e : WEvent)
  deriving DecidableEq, Repr

/-- `XdndEnter` handling (event_processor.rs:421): records the protocol version and
the type list (the three inline atoms, or the queried full list when the has-more-types
flag is set; `queriedTypeList = none` models a failed `get_type_list` call). No other
session field is touched. -/
def xdnd_enter (dnd : DndState) (version : Int) (hasMoreTypes : Bool)
    (inlineTypes : List Nat) (queriedTypeList : Option (List Nat)) : DndState :=
  let dnd := { dnd with version := some version }
  if !hasMoreTypes then { dnd with typeList := some inlineTypes }
  else
    match queriedTypeList with
    | some moreTypes => { dnd with typeList := some moreTypes }
    | none => dnd

/-- `XdndPosition` handling (event_processor.rs:440): stores the translated position,
accepts iff the supported MIME atom is in the recorded type list; on rejection replies
`Rejected` and resets the session; on acceptance records the source window, issues
`convert_selection` (modelled by the ghost pending flag) and replies `Accepted`. -/
def xdnd_position (uriListAtom : Nat) (dnd : DndState) (sourceWindow : Nat)
    (coords : Int × Int) : DndState × List DndOut :=
  let dnd := { dnd with position := coords }
  let accepted :=
    match dnd.typeList with
    | some typeList => typeList.contains uriListAtom
    | none => false
  if accepted then
    ({ dnd with sourceWindow := some sourceWindow, pendingSelection := true },
      [DndOut.reply (DndReply.status true)])
  else
    (dndReset dnd, [DndOut.reply (DndReply.status false)])

/-- `XdndDrop` handling (event_processor.rs:511): when a source window is recorded,
emits `DragDropped` iff a successfully parsed path list is cached and replies
`Finished/Accepted`; otherwise (drop already rejected) replies `Finished/Rejected`.
Resets unconditionally. -/
def xdnd_drop (dnd : DndState) : DndState × List DndOut :=
  let out :=
    match dnd.sourceWindow with
    | some _ =>
      match dnd.result with
      | some (some _) =>
        [DndOut.event WEvent.dragDropped, DndOut.reply (DndReply.finished true)]
      | _ => [DndOut.reply (DndReply.finished true)]
    | none => [DndOut.reply (DndReply.finished false)]
  (dndReset dnd, out)

/-- `XdndLeave` handling (event_processor.rs:538): emits `DragLeft` iff a drag is in
progress, then resets the session. -/
def xdnd_leave (dnd : DndState) : DndState × List DndOut :=
  let out := if dnd.dragging then [DndOut.event WEvent.dragLeft] else []
  (dndReset dnd, out)

/-- `EventProcessor::selection_notify` (event_processor.rs:547): on a `SelectionNotify`
for the XDND selection, clears the cached result, reads the transferred data
(`readData = none` models a failed read) and parses it (`some paths` = Ok). The first
successful parse while not dragging sets the dragging flag and emits `DragEntered`;
later successful parses emit `DragMoved`. The parse outcome is cached and the ghost
pending flag is consumed. -/
def selection_notify (isXdndSelection : Bool) (readData : Option (Option (List Nat)))
    (dnd : DndState) : DndState × List DndOut :=
  if !isXdndSelection then (dnd, [])
  else
    let dnd := { dnd with result := none, pendingSelection := false }
    match readData with
    | none => (dnd, [])
    | some parseResult =>
      match parseResult with
      | some _ =>
        if dnd.dragging then
          ({ dnd with result := some parseResult }, [DndOut.event WEvent.dragMoved])
        else
          ({ dnd with dragging := true, result := some parseResult },
            [DndOut.event WEvent.dragEntered])
      | none => ({ dnd with result := some parseResult }, [])

/-- A message of an ongoing drag-and-drop session, with the external inputs the
handler consumes carried on the message. `XdndEnter` is excluded: it begins a new
session. -/
inductive DndMsg where
  | pos (sourceWindow : Nat) (coords : Int × Int)
  | drop
  | leave
  | selNotify (isXdndSelection : Bool) (readData : Option (Option (List Nat)))
  deriving DecidableEq, Repr

/-- Dispatch one session message to its handler. -/
def dndStep (uriListAtom : Nat) (dnd : DndState) : DndMsg → DndState × List DndOut
  | DndMsg.pos sourceWindow coords => xdnd_position uriListAtom dnd sourceWindow coords
  | DndMsg.drop => xdnd_drop dnd
  | DndMsg.leave => xdnd_leave dnd
  | DndMsg.selNotify isSel readData => selection_notify isSel readData dnd

/-- Protocol-conformant message sequences: a `SelectionNotify` for the XDND selection
only arrives while a `convert_selection` request is outstanding. -/
def dndWf (uriListAtom : Nat) (dnd : DndState) : List DndMsg → Bool
  | [] => true
  | msg :: rest =>
    let ok :=
      match msg with
      | DndMsg.selNotify true _ => dnd.pendingSelection
      | _ => true
    ok && dndWf uriListAtom (dndStep uriListAtom dnd msg).1 rest

/-- Run a message sequence, recording for each step the message, the outputs, and the
state after the step. -/
def dndRun (uriListAtom : Nat) (dnd : DndState) :
    List DndMsg → List (DndMsg × List DndOut × DndState)
  | [] => []
  | msg :: rest =>
    let r := dndStep uriListAtom dnd msg
    (msg, r.2, r.1) :: dndRun uriListAtom r.1 rest

/-- Whether a handler output is a `DragEntered` or `DragMoved` application event. -/
def isDragEnterOrMove : DndOut → Bool
  | DndOut.event WEvent.dragEntered => true
  | DndOut.event WEvent.dragMoved => true
  | _ => false

/-- Per-step property of a session whose type list lacks the supported MIME type: no
`DragEntered`/`DragMoved` output, and every `XdndPosition` message is answered with a
`Rejected` status with the session left reset afterwards. -/
def rejectedSessionStepOk (r : DndMsg × List DndOut × DndState) : Bool :=
  r.2.1.all (fun o => !isDragEnterOrMove o) &&
    match r.1 with
    | DndMsg.pos _ _ =>
      r.2.1.contains (DndOut.reply (DndReply.status false)) && (r.2.2 == dndReset r.2.2)
    | _ => true

/-- Touch phases of the XInput2 touch events handled by `xinput2_touch`. -/
inductive TouchPhase where
  | touchBegin
  | touchUpdate
  | touchEnd
  deriving DecidableEq, Repr

/-- `is_first_touch` (event_processor.rs:1748): updates the (first-touch id, active
touch count) state on begin/end and reports whether `id` is now the first (primary)
contact. `Nat` subtraction models `saturating_sub`. -/
def is_first_touch (first : Option Nat) (num : Nat) (id : Nat) (phase : TouchPhase) :
    (Option Nat × Nat) × Bool :=
  let fn :=
    match phase with
    | TouchPhase.touchBegin => ((if num = 0 then some id else first), num + 1)
    | TouchPhase.touchEnd => ((if first = some id then none else first), num - 1)
    | TouchPhase.touchUpdate => (first, num)
  (fn, fn.1 == some id)

/-- The (first touch, touch count) state of the event processor. -/
structure TouchState where
  first : Option Nat
  num : Nat
  deriving DecidableEq, Repr

/-- One `is_first_touch` transition on the packaged state. -/
def touchStep (s : TouchState) (id : Nat) (phase : TouchPhase) : TouchState × Bool :=
  let r := is_first_touch s.first s.num id phase
  (⟨r.1.1, r.1.2⟩, r.2)

/-- Run a sequence of touch events, returning the final state and the per-event
primary flags reported by `is_first_touch`. -/
def runTouch (s : TouchState) : List (Nat × TouchPhase) → TouchState × List Bool
  | [] => (s, [])
  | p :: rest =>
    let r := touchStep s p.1 p.2
    let rr := runTouch r.1 rest
    (rr.1, r.2 :: rr.2)

/-- Events of contact 7 (begin/update/end) and updates of contact 5, i.e. the events
that may occur during contact 5's lifetime in the two-contact scenario. -/
inductive TOp where
  | u5
  | u7
  | b7
  | e7
  deriving DecidableEq, Repr

/-- Whether an operation is admissible given whether contact 7 is currently alive. -/
def tOpOk (alive7 : Bool) : TOp → Bool
  | TOp.u5 => true
  | TOp.u7 => alive7
  | TOp.b7 => !alive7
  | TOp.e7 => alive7

/-- Whether contact 7 is alive after the operation. -/
def tOpAlive (alive7 : Bool) : TOp → Bool
  | TOp.b7 => true
  | TOp.e7 => false
  | _ => alive7

/-- Valid interleavings during contact 5's lifetime: contact 7 begins and ends in
order (at most two concurrent contacts), updates only touch alive contacts. -/
def midOk : List TOp → Bool → Bool
  | [], _ => true
  | o :: rest, alive7 => tOpOk alive7 o && midOk rest (tOpAlive alive7 o)

/-- The contact id carried by an operation. -/
def tOpId : TOp → Nat
  | TOp.u5 => 5
  | _ => 7

/-- The touch phase carried by an operation. -/
def tOpPhase : TOp → TouchPhase
  | TOp.u5 => TouchPhase.touchUpdate
  | TOp.u7 => TouchPhase.touchUpdate
  | TOp.b7 => TouchPhase.touchBegin
  | TOp.e7 => TouchPhase.touchEnd

/-- Operations as (id, phase) pairs fed to `is_first_touch`. -/
def tOps (l : List TOp) : List (Nat × TouchPhase) :=
  l.map (fun o => (tOpId o, tOpPhase o))

/-- Key-repeat tracking from `EventProcessor::xinput_key_input`
(event_processor.rs:859): only repeatable keys change the held slot; a press is a
repeat iff it matches the currently held key; a release clears the slot only if it
matches. Returns (new held slot, repeat flag). -/
def key_repeat_update (keyRepeats : Nat → Bool) (held : Option Nat) (keycode : Nat)
    (pressed : Bool) : Option Nat × Bool :=
  if keyRepeats keycode then
    let isLatestHeld := held == some keycode
    if pressed then (some keycode, isLatestHeld)
    else ((if isLatestHeld then none else held), false)
  else (held, false)

/-- X11 keycodes lie in `[8, 255]` (event_processor.rs:46). -/
def KEYCODE_OFFSET : Nat := 8

/-- `EventProcessor::handle_pressed_keys` (event_processor.rs:1677): one synthetic
`KeyboardInput` per held keycode (at least `KEYCODE_OFFSET`) reported by the hardware
`query_keymap` round trip. -/
def handle_pressed_keys (queryKeymap : List Nat) (pressed : Bool) : List WEvent :=
  (queryKeymap.filter (fun k => KEYCODE_OFFSET ≤ k)).map
    (fun k => WEvent.keyboardInput pressed k true)

/-- The `EventProcessor` fields driving the focus handlers: the active window, the
held-repeat slot, the xkb modifier state, and the last-sent modifiers snapshot. -/
structure FocusState where
  activeWindow : Option Nat
  heldKeyPress : Option Nat
  xkbMods : Nat
  lastSentMods : Nat
  deriving DecidableEq, Repr

/-- External inputs of the focus handlers: the hardware key-state query result, the
modifier state reported by `XkbGetState`, and whether the window still exists. -/
structure FocusEnv where
  queryKeymap : List Nat
  modsQuery : Nat
  windowExists : Bool
  deriving DecidableEq, Repr

/-- `EventProcessor::xinput2_focused` (event_processor.rs:1179): entering focus on the
already-active window is a no-op; otherwise records the new active window, emits
`Focused(true)`, synthesizes a pressed `KeyboardInput` for every held key, refreshes
the modifiers from the hardware query with a forced resend, and emits the cursor
`PointerMoved`. -/
def xinput2_focused (env : FocusEnv) (s : FocusState) (window : Nat) :
    FocusState × List WEvent :=
  if s.activeWindow = some window then (s, [])
  else
    let s := { s with activeWindow := some window }
    let pressedEvents := handle_pressed_keys env.queryKeymap true
    let s := { s with xkbMods := env.modsQuery }
    let r := send_modifiers s.lastSentMods s.xkbMods true
    let s := { s with lastSentMods := r.1 }
    (s, WEvent.focused true :: pressedEvents ++ r.2.toList ++ [WEvent.pointerMoved])

/-- `EventProcessor::xinput2_unfocused` (event_processor.rs:1234): for an existing
window, takes the active-window slot; when it held this window, clears the modifier
state with a forced `ModifiersChanged` resend, synthesizes a released `KeyboardInput`
for every held key, clears the held-repeat slot, and emits `Focused(false)`. -/
def xinput2_unfocused (env : FocusEnv) (s : FocusState) (window : Nat) :
    FocusState × List WEvent :=
  if env.windowExists = false then (s, [])
  else
    let active := s.activeWindow
    let s := { s with activeWindow := none }
    if active = some window then
      let s := { s with xkbMods := 0 }
      let r := send_modifiers s.lastSentMods 0 true
      let s := { s with lastSentMods := r.1 }
      let releasedEvents := handle_pressed_keys env.queryKeymap false
      let s := { s with heldKeyPress := none }
      (s, r.2.toList ++ releasedEvents ++ [WEvent.focused false])
    else (s, [])

/-- Scroll-axis update, the loop body shared by `EventProcessor::xinput2_mouse_motion`
(event_processor.rs:1098) and the legacy `XI_Motion` handler
(platform/linux/x11/mod.rs:388): `delta = (x - info.position) / info.increment` and
the stored position becomes `x`. The `f64` valuator values are embedded as rationals.
Returns (delta, new stored position). -/
def scroll_axis_update (increment position x : ℚ) : ℚ × ℚ :=
  ((x - position) / increment, x)

/-- `XIPointerEmulated` flag bit (1 <<< 16) from XInput2. -/
def XIPointerEmulated : Nat := 65536

/-- `EventProcessor::xinput2_button_input` (event_processor.rs:963): pointer-emulated
events are suppressed entirely; otherwise exactly one window event is emitted,
selected by the button `detail` (buttons are embedded by their X numbers, wheel
buttons 4-7 as `MouseWheel` line deltas). -/
def xinput2_button_input (flags : Nat) (detail : Nat) (pressed : Bool) : List WEvent :=
  if flags &&& XIPointerEmulated ≠ 0 then []
  else
    [match detail with
     | 1 => WEvent.pointerButton pressed 1
     | 2 => WEvent.pointerButton pressed 2
     | 3 => WEvent.pointerButton pressed 3
     | 4 => WEvent.mouseWheel 0 1
     | 5 => WEvent.mouseWheel 0 (-1)
     | 6 => WEvent.mouseWheel 1 0
     | 7 => WEvent.mouseWheel (-1) 0
     | x => WEvent.pointerButton pressed x]

/-- `EventProcessor::xinput2_raw_button_input` (event_processor.rs:1357): emits the
device `Button` event unless the raw event is pointer-emulated. -/
def xinput2_raw_button_input (flags : Nat) (detail : Nat) (pressed : Bool) :
    List DEvent :=
  if flags &&& XIPointerEmulated = 0 then [DEvent.button pressed detail] else []

/-- C2: `send_modifiers` always stores the new canonical modifiers as the last-sent
snapshot; it emits a `ModifiersChanged` event (carrying exactly the stored value) iff
the new value differs bit-for-bit from the previously stored one or `force` is set,
and emits nothing otherwise. -/
theorem send_modifiers_emits_iff (lastSent modifiers : Nat) (force : Bool) :
    (send_modifiers lastSent modifiers force).1 = modifiers ∧
      ((send_modifiers lastSent modifiers force).2
          = some (WEvent.modifiersChanged modifiers) ↔
        (modifiers ≠ lastSent ∨ force = true)) ∧
      ((send_modifiers lastSent modifiers force).2 = none ↔
        (modifiers = lastSent ∧ force = false)) := by
  rcases eq_or_ne lastSent modifiers with he | he
  · subst he
    cases force <;> simp [send_modifiers]
  · cases force <;> simp [send_modifiers, he, Ne.symm he]

/-- C9: the scroll delta is `(new_value - last_value) / increment` and the stored
axis position is updated to the new value; in particular, with increment 120 and
stored position 0, a new valuator value of 240 yields a delta of exactly 2.0 lines
and the stored position becomes 240. -/
theorem scroll_delta_computation :
    (∀ increment position x : ℚ,
        scroll_axis_update increment position x = ((x - position) / increment, x)) ∧
      scroll_axis_update 120 0 240 = (2, 240) := by
  refine ⟨fun increment position x => rfl, ?_⟩
  unfold scroll_axis_update
  norm_num

/-- C10: a pointer-emulated XInput2 button press/release produces no window event at
all from the button handler (full suppression, not only scroll-wheel clicks), and a
pointer-emulated raw button event produces no device event. -/
theorem pointer_emulated_buttons_suppressed (flags detail : Nat) (pressed : Bool)
    (h : flags &&& XIPointerEmulated ≠ 0) :
    xinput2_button_input flags detail pressed = [] ∧
      xinput2_raw_button_input flags detail pressed = [] := by
  unfold xinput2_button_input xinput2_raw_button_input
  simp [h]

/-- C10 witness: an emulated scroll-click press (emulated flag bit set, detail 4) is
suppressed by both the window-level and the raw button handler. -/
theorem pointer_emulated_buttons_suppressed_witness :
    xinput2_button_input 65536 4 true = [] ∧
      xinput2_raw_button_input 65536 4 true = [] :=
  pointer_emulated_buttons_suppressed 65536 4 true (by decide)

/-- C6: processing `XdndLeave` twice in a row emits `DragLeft` on the first call iff
a drag was in progress, and the second call emits nothing: the session, including the
dragging flag, was already reset by the first call. -/
theorem dnd_leave_idempotent (dnd : DndState) :
    ((xdnd_leave dnd).2 = [DndOut.event WEvent.dragLeft] ↔ dnd.dragging = true) ∧
      (xdnd_leave (xdnd_leave dnd).1).2 = [] := by
  unfold xdnd_leave dndReset
  cases h : dnd.dragging <;> simp

/-- C8 counterexample: with a session still active (source window 42 recorded, a
parse result cached, dragging set), processing `XdndEnter` leaves the source window,
position, cached result and dragging flag of the previous session in place,
contradicting the claim that the entire previous session state is reset before the
new version and type list are recorded. -/
theorem xdnd_enter_does_not_reset :
    (xdnd_enter ⟨some 5, some [7], some 42, (3, 4), some (some [9]), true, false⟩
          5 false [1, 2, 3] none).sourceWindow = some 42 ∧
      (xdnd_enter ⟨some 5, some [7], some 42, (3, 4), some (some [9]), true, false⟩
          5 false [1, 2, 3] none).dragging = true ∧
      (xdnd_enter ⟨some 5, some [7], some 42, (3, 4), some (some [9]), true, false⟩
          5 false [1, 2, 3] none).result = some (some [9]) ∧
      (xdnd_enter ⟨some 5, some [7], some 42, (3, 4), some (some [9]), true, false⟩
          5 false [1, 2, 3] none).position = (3, 4) :=
  ⟨rfl, rfl, rfl, rfl⟩

/-- C8 amended: the processor keeps a single drag-and-drop session record (so at most
one session's state exists at a time), but `XdndEnter` does not reset the previous
session: it records the protocol version and the type list (the inline atoms, or the
queried full list when the has-more-types flag is set and the query succeeds), while
the source window, position, cached result, dragging flag and pending-selection flag
all persist unchanged. -/
theorem xdnd_enter_records_version_and_types (dnd : DndState) (version : Int)
    (hasMoreTypes : Bool) (inlineTypes : List Nat)
    (queriedTypeList : Option (List Nat)) :
    (xdnd_enter dnd version hasMoreTypes inlineTypes queriedTypeList).version
        = some version ∧
      (xdnd_enter dnd version hasMoreTypes inlineTypes queriedTypeList).typeList
        = (if hasMoreTypes = false then some inlineTypes
           else
             match queriedTypeList with
             | some moreTypes => some moreTypes
             | none => dnd.typeList) ∧
      (xdnd_enter dnd version hasMoreTypes inlineTypes queriedTypeList).sourceWindow
        = dnd.sourceWindow ∧
      (xdnd_enter dnd version hasMoreTypes inlineTypes queriedTypeList).position
        = dnd.position ∧
      (xdnd_enter dnd version hasMoreTypes inlineTypes queriedTypeList).result
        = dnd.result ∧
      (xdnd_enter dnd version hasMoreTypes inlineTypes queriedTypeList).dragging
        = dnd.dragging ∧
      (xdnd_enter dnd version hasMoreTypes inlineTypes queriedTypeList).pendingSelection
        = dnd.pendingSelection := by
  unfold xdnd_enter
  cases hasMoreTypes <;> cases queriedTypeList <;> simp

/-- C5: with the key-repeat tracking of `xinput_key_input`: pressing a repeatable key
K twice without an intervening release of K reports the second press as a repeat; a
non-repeatable key J pressed in between leaves K in the held slot and the following
press of K still reports a repeat; and releasing K then pressing K again is never
flagged as a repeat, from any prior held state. -/
theorem key_repeat_behavior (keyRepeats : Nat → Bool) (K J : Nat) (held0 : Option Nat)
    (hK : keyRepeats K = true) (hJ : keyRepeats J = false) :
    (key_repeat_update keyRepeats
        (key_repeat_update keyRepeats held0 K true).1 K true).2 = true ∧
      ((key_repeat_update keyRepeats
          (key_repeat_update keyRepeats held0 K true).1 J true).1 = some K ∧
        (key_repeat_update keyRepeats
            (key_repeat_update keyRepeats
              (key_repeat_update keyRepeats held0 K true).1 J true).1 K true).2
          = true) ∧
      ∀ held : Option Nat,
        (key_repeat_update keyRepeats
            (key_repeat_update keyRepeats held K false).1 K true).2 = false := by
  refine ⟨?_, ⟨?_, ?_⟩, ?_⟩
  · simp [key_repeat_update, hK]
  · simp [key_repeat_update, hK, hJ]
  · simp [key_repeat_update, hK, hJ]
  · intro held
    rcases held with _ | k
    · simp [key_repeat_update, hK]
    · by_cases hkK : k = K
      · subst hkK; simp [key_repeat_update, hK]
      · simp [key_repeat_update, hK, hkK]

/-- C5 witness: with keycode 38 repeatable and keycode 9 not, a double press of 38
reports a repeat, and after releasing 38 (here from a held slot containing 40) a new
press of 38 is not a repeat. -/
theorem key_repeat_behavior_witness :
    (fun k => k == 38) 38 = true ∧ (fun k => k == 38) 9 = false ∧
      (key_repeat_update (fun k => k == 38)
          (key_repeat_update (fun k => k == 38) none 38 true).1 38 true).2 = true ∧
      (key_repeat_update (fun k => k == 38)
          (key_repeat_update (fun k => k == 38) (some 40) 38 false).1 38 true).2
        = false :=
  ⟨by decide, by decide,
    (key_repeat_behavior (fun k => k == 38) 38 9 none (by decide) (by decide)).1,
    (key_repeat_behavior (fun k => k == 38) 38 9 none (by decide)
      (by decide)).2.2 (some 40)⟩

/-- Helper for C4: from a state where 5 is the recorded first touch and the count
matches the alive contacts, any valid interleaving of contact-7 events and contact-5
updates keeps 5 as the first touch, reports primary exactly for contact 5's events,
and ends again in such a state. -/
theorem runTouch_mid_spec (mid : List TOp) : ∀ alive7 : Bool,
    midOk mid alive7 = true →
    (runTouch ⟨some 5, if alive7 then 2 else 1⟩ (tOps mid)).2
        = mid.map (fun o => tOpId o == 5) ∧
      ∃ b : Bool, (runTouch ⟨some 5, if alive7 then 2 else 1⟩ (tOps mid)).1
        = ⟨some 5, if b then 2 else 1⟩ := by
  induction mid with
  | nil => exact fun alive7 _ => ⟨rfl, ⟨alive7, rfl⟩⟩
  | cons o rest ih =>
    intro alive7 hok
    rw [midOk, Bool.and_eq_true] at hok
    obtain ⟨hok1, hok2⟩ := hok
    have key : touchStep ⟨some 5, if alive7 then 2 else 1⟩ (tOpId o) (tOpPhase o)
        = (⟨some 5, if tOpAlive alive7 o then 2 else 1⟩, tOpId o == 5) := by
      cases o <;> cases alive7 <;>
        simp_all [touchStep, is_first_touch, tOpOk, tOpAlive, tOpId, tOpPhase]
    obtain ⟨ih1, b, ih2⟩ := ih (tOpAlive alive7 o) hok2
    have hcons : tOps (o :: rest) = (tOpId o, tOpPhase o) :: tOps rest := rfl
    rw [hcons, runTouch]
    simp only [key, List.map_cons]
    exact ⟨by rw [ih1], ⟨b, ih2⟩⟩

/-- C4: touch primary-contact tracking. From the idle state, touch-begin(5) makes
contact 5 primary; through any valid interleaving of contact-7 begin/update/end
events and contact-5 updates (at most two concurrent contacts), `is_first_touch`
reports primary exactly for contact 5's events; touch-end(5) then clears the slot
(the end transition itself no longer reporting 5 as primary), after which a
touch-begin of contact 7 with no other active contact makes 7 primary. In particular,
for begin(5), begin(7), end(5), end(7) the reported primary flags are
[true, false, false, false]. -/
theorem touch_primary_contact (mid : List TOp) (hmid : midOk mid false = true) :
    touchStep ⟨none, 0⟩ 5 TouchPhase.touchBegin = (⟨some 5, 1⟩, true) ∧
      (runTouch ⟨some 5, 1⟩ (tOps mid)).2 = mid.map (fun o => tOpId o == 5) ∧
      ((touchStep (runTouch ⟨some 5, 1⟩ (tOps mid)).1 5 TouchPhase.touchEnd).1.first
          = none ∧
        (touchStep (runTouch ⟨some 5, 1⟩ (tOps mid)).1 5 TouchPhase.touchEnd).2
          = false) ∧
      ((touchStep (runTouch ⟨some 5, 1⟩ (tOps mid)).1 5 TouchPhase.touchEnd).1.num
          = 0 →
        (touchStep (touchStep (runTouch ⟨some 5, 1⟩ (tOps mid)).1 5
            TouchPhase.touchEnd).1 7 TouchPhase.touchBegin).2 = true) ∧
      (runTouch ⟨none, 0⟩ [(5, TouchPhase.touchBegin), (7, TouchPhase.touchBegin),
          (5, TouchPhase.touchEnd), (7, TouchPhase.touchEnd)]).2
        = [true, false, false, false] := by
  obtain ⟨h1, b, h2⟩ :=
    runTouch_mid_spec mid false (by simpa using hmid)
  have h2a : (runTouch ⟨some 5, 1⟩ (tOps mid)).1
      = ⟨some 5, if b = true then 2 else 1⟩ := by simpa using h2
  refine ⟨rfl, by simpa using h1, ?_, ?_, by decide⟩
  · rw [h2a]
    cases b <;> simp [touchStep, is_first_touch]
  · rw [h2a]
    cases b <;> simp [touchStep, is_first_touch]

/-- C4 witness: the interleaving begin(7), update(5), update(7), end(7), update(5)
during contact 5's lifetime is valid, and primary is reported exactly on contact 5's
updates. -/
theorem touch_primary_contact_witness :
    midOk [TOp.b7, TOp.u5, TOp.u7, TOp.e7, TOp.u5] false = true ∧
      (runTouch ⟨some 5, 1⟩ (tOps [TOp.b7, TOp.u5, TOp.u7, TOp.e7, TOp.u5])).2
        = [false, true, false, false, true] :=
  ⟨by decide,
    (touch_primary_contact [TOp.b7, TOp.u5, TOp.u7, TOp.e7, TOp.u5]
        (by decide)).2.1.trans (by decide)⟩

/-- Helper for C3: a session state whose type list lacks the supported MIME atom (or
was already cleared) and with no outstanding selection request keeps, along any
protocol-conformant message sequence, emitting no `DragEntered`/`DragMoved` and
answering every `XdndPosition` with a rejection that resets the session. -/
theorem dndRun_rejected_aux (uriListAtom : Nat) (msgs : List DndMsg) :
    ∀ dnd : DndState,
      (∀ typeList, dnd.typeList = some typeList → uriListAtom ∉ typeList) →
      dnd.pendingSelection = false →
      dndWf uriListAtom dnd msgs = true →
      (dndRun uriListAtom dnd msgs).all rejectedSessionStepOk = true := by
  induction msgs with
  | nil => exact fun dnd _ _ _ => rfl
  | cons msg rest ih =>
    intro dnd htl hpending hwf
    rw [dndRun, List.all_cons, Bool.and_eq_true]
    cases msg with
    | pos sourceWindow coords =>
      simp only [dndWf, Bool.true_and] at hwf
      have hstep : dndStep uriListAtom dnd (DndMsg.pos sourceWindow coords)
          = (dndReset { dnd with position := coords },
              [DndOut.reply (DndReply.status false)]) := by
        simp only [dndStep]
        unfold xdnd_position
        cases h : dnd.typeList with
        | none => simp
        | some tl =>
          have hc : tl.contains uriListAtom = false := by simpa using htl tl h
          simp [h, hc, htl tl h]
      rw [hstep] at hwf ⊢
      constructor
      · simp [rejectedSessionStepOk, isDragEnterOrMove, dndReset]
      · exact ih _ (fun tl h => by simp [dndReset] at h)
          (by simp [dndReset, hpending]) hwf
    | drop =>
      simp only [dndWf, Bool.true_and] at hwf
      have hall : ((xdnd_drop dnd).2).all (fun o => !isDragEnterOrMove o) = true := by
        unfold xdnd_drop
        rcases dnd.sourceWindow with _ | sw
        · simp [isDragEnterOrMove]
        · rcases dnd.result with _ | pr
          · simp [isDragEnterOrMove]
          · rcases pr with _ | paths <;> simp [isDragEnterOrMove]
      constructor
      · simp only [dndStep, rejectedSessionStepOk]
        simpa using hall
      · have hst : (dndStep uriListAtom dnd DndMsg.drop).1 = dndReset dnd := by
          simp [dndStep, xdnd_drop]
        rw [hst] at hwf ⊢
        exact ih _ (fun tl h => by simp [dndReset] at h)
          (by simp [dndReset, hpending]) hwf
    | leave =>
      simp only [dndWf, Bool.true_and] at hwf
      constructor
      · unfold dndStep xdnd_leave rejectedSessionStepOk
        cases dnd.dragging <;> simp [isDragEnterOrMove]
      · have hst : (dndStep uriListAtom dnd DndMsg.leave).1 = dndReset dnd := by
          simp [dndStep, xdnd_leave]
        rw [hst] at hwf ⊢
        exact ih _ (fun tl h => by simp [dndReset] at h)
          (by simp [dndReset, hpending]) hwf
    | selNotify isSel readData =>
      cases isSel with
      | true =>
        simp only [dndWf, Bool.and_eq_true] at hwf
        exact absurd hwf.1 (by simp [hpending])
      | false =>
        simp only [dndWf, Bool.true_and] at hwf
        have hst : dndStep uriListAtom dnd (DndMsg.selNotify false readData)
            = (dnd, []) := by
          simp [dndStep, selection_notify]
        rw [hst] at hwf ⊢
        constructor
        · simp [rejectedSessionStepOk]
        · exact ih _ htl hpending hwf

/-- C3: for a drag-and-drop session whose recorded type list does not contain the
supported MIME atom (text/uri-list) and with no outstanding selection transfer, every
protocol-conformant sequence of subsequent session messages (positions, drop, leave,
selection notifications) answers each `XdndPosition` with a `Rejected` status and
leaves the session reset, and never delivers a `DragEntered` or `DragMoved` event. -/
theorem dnd_rejected_session (uriListAtom : Nat) (typeList : List Nat)
    (dnd : DndState) (msgs : List DndMsg) (htl : dnd.typeList = some typeList)
    (hnot : uriListAtom ∉ typeList) (hpending : dnd.pendingSelection = false)
    (hwf : dndWf uriListAtom dnd msgs = true) :
    (dndRun uriListAtom dnd msgs).all rejectedSessionStepOk = true :=
  dndRun_rejected_aux uriListAtom msgs dnd
    (fun tl h => by rw [htl] at h; injection h with h; rwa [← h]) hpending hwf

/-- C3 witness: with the supported atom 1 absent from the recorded type list [2, 3],
a session trace of two positions, a drop, a stray non-XDND selection notification and
a leave rejects both positions and emits no drag-enter/drag-move. -/
theorem dnd_rejected_session_witness :
    (1 : Nat) ∉ ([2, 3] : List Nat) ∧
      (dndRun 1 ⟨some 5, some [2, 3], none, (0, 0), none, false, false⟩
          [DndMsg.pos 9 (4, 4), DndMsg.drop, DndMsg.selNotify false none,
            DndMsg.leave, DndMsg.pos 9 (6, 6)]).all rejectedSessionStepOk = true :=
  ⟨by decide,
    dnd_rejected_session 1 [2, 3] ⟨some 5, some [2, 3], none, (0, 0), none, false,
      false⟩ [DndMsg.pos 9 (4, 4), DndMsg.drop, DndMsg.selNotify false none,
      DndMsg.leave, DndMsg.pos 9 (6, 6)] rfl (by decide) rfl (by decide)⟩

/-- C7: on a focus-in transition to a new active window the handler emits
`Focused(true)`, one synthetic pressed `KeyboardInput` per held key reported by the
hardware query (so their count equals the query's key count), a forced
`ModifiersChanged`, and the cursor `PointerMoved`; the matching focus-out emits
exactly one cleared `ModifiersChanged` followed by synthetic released
`KeyboardInput` events for the same key set and the closing `Focused(false)`. -/
theorem focus_transition_completeness (env : FocusEnv) (s : FocusState) (w : Nat)
    (hnew : s.activeWindow ≠ some w) (hexists : env.windowExists = true)
    (hkeys : ∀ k ∈ env.queryKeymap, KEYCODE_OFFSET ≤ k) :
    (xinput2_focused env s w).2
        = WEvent.focused true ::
            env.queryKeymap.map (fun k => WEvent.keyboardInput true k true)
          ++ [WEvent.modifiersChanged env.modsQuery, WEvent.pointerMoved] ∧
      ((xinput2_focused env s w).2.countP
          (fun e => match e with
            | WEvent.keyboardInput true _ true => true
            | _ => false)
        = env.queryKeymap.length) ∧
      (xinput2_unfocused env (xinput2_focused env s w).1 w).2
        = WEvent.modifiersChanged 0 ::
            env.queryKeymap.map (fun k => WEvent.keyboardInput false k true)
          ++ [WEvent.focused false] ∧
      ((xinput2_unfocused env (xinput2_focused env s w).1 w).2.countP
          (fun e => match e with
            | WEvent.keyboardInput false _ true => true
            | _ => false)
        = env.queryKeymap.length) ∧
      ((xinput2_unfocused env (xinput2_focused env s w).1 w).2.countP
          (fun e => match e with
            | WEvent.modifiersChanged m => m == 0
            | _ => false)
        = 1) := by
  have hfilter : env.queryKeymap.filter (fun k => KEYCODE_OFFSET ≤ k)
      = env.queryKeymap :=
    List.filter_eq_self.mpr (fun a ha => by simpa using hkeys a ha)
  have hfi : xinput2_focused env s w
      = (⟨some w, s.heldKeyPress, env.modsQuery, env.modsQuery⟩,
          WEvent.focused true ::
              env.queryKeymap.map (fun k => WEvent.keyboardInput true k true)
            ++ [WEvent.modifiersChanged env.modsQuery, WEvent.pointerMoved]) := by
    unfold xinput2_focused handle_pressed_keys send_modifiers
    rw [if_neg hnew]
    simp [hfilter]
  have hfo : xinput2_unfocused env
        (⟨some w, s.heldKeyPress, env.modsQuery, env.modsQuery⟩ : FocusState) w
      = (⟨none, none, 0, 0⟩,
          WEvent.modifiersChanged 0 ::
              env.queryKeymap.map (fun k => WEvent.keyboardInput false k true)
            ++ [WEvent.focused false]) := by
    unfold xinput2_unfocused handle_pressed_keys send_modifiers
    rw [if_neg (by simp [hexists])]
    simp [hfilter]
  refine ⟨by simp [hfi], ?_, by simp [hfi, hfo], ?_, ?_⟩ <;>
    simp [hfi, hfo, List.countP_cons, List.countP_append, List.countP_map,
      Function.comp]

/-- C7 witness: focusing window 1 with keys 8 and 30 held and modifier query 5
synthesizes two pressed key events, and the matching unfocus emits the cleared
modifiers once, then the two matching releases, then `Focused(false)`. -/
theorem focus_transition_completeness_witness :
    ((none : Option Nat) ≠ some 1) ∧
      (xinput2_focused ⟨[8, 30], 5, true⟩ ⟨none, none, 0, 0⟩ 1).2
        = [WEvent.focused true, WEvent.keyboardInput true 8 true,
            WEvent.keyboardInput true 30 true, WEvent.modifiersChanged 5,
            WEvent.pointerMoved] ∧
      (xinput2_unfocused ⟨[8, 30], 5, true⟩
          (xinput2_focused ⟨[8, 30], 5, true⟩ ⟨none, none, 0, 0⟩ 1).1 1).2
        = [WEvent.modifiersChanged 0, WEvent.keyboardInput false 8 true,
            WEvent.keyboardInput false 30 true, WEvent.focused false] :=
  ⟨by decide,
    (focus_transition_completeness ⟨[8, 30], 5, true⟩ ⟨none, none, 0, 0⟩ 1
        (by decide) rfl (by decide)).1.trans (by decide),
    (focus_transition_completeness ⟨[8, 30], 5, true⟩ ⟨none, none, 0, 0⟩ 1
        (by decide) rfl (by decide)).2.2.1.trans (by decide)⟩

/-- C1 counterexample: (i) with the cached size equal to the reported size, a
synthetic configure during a monitor scale-factor change (the application negotiating
a different surface size) still delivers `SurfaceResized`, although neither reported
width nor height differs from the cached size; (ii) a synthetic configure whose
recomputed outer position equals the previously cached outer position still delivers
`Moved`, because the handler keys on the root-relative (inner) position, not on an
outer-position comparison. -/
theorem configure_notify_counterexample :
    ((configure_notify ⟨⟨0, 0⟩, some 2, (200, 200), none, false⟩
          ⟨some (100, 100), some (0, 0), none, some (0, 0), some ⟨0, 0⟩, none, 1⟩
          true (0, 0) (100, 100)).2
        = [WEvent.scaleFactorChanged 2, WEvent.surfaceResized (100, 100)] ∧
      (⟨some (100, 100), some (0, 0), none, some (0, 0), some ⟨0, 0⟩, none,
          1⟩ : SharedState).size = some (100, 100)) ∧
    ((configure_notify ⟨⟨0, 0⟩, none, (0, 0), none, false⟩
          ⟨some (100, 100), none, some (0, 0), some (5, 5), none, none, 1⟩
          true (5, 5) (100, 100)).2 = [WEvent.moved (5, 5)] ∧
      (⟨some (100, 100), none, some (0, 0), some (5, 5), none, none,
          1⟩ : SharedState).position = some (5, 5)) := by
  refine ⟨⟨?_, rfl⟩, ⟨?_, rfl⟩⟩ <;> decide

/-- C1 amended: for a live window, `configure_notify` delivers a `Moved` event iff
the configure is synthetic and the reported root-relative position differs from the
cached inner position (the handler keys on the inner position, not on an
outer-position comparison), and delivers `SurfaceResized` iff the reported width or
height differs from the cached size, or the scale-factor path forced a resize with a
negotiated surface-size change. -/
theorem configure_notify_moved_resized (env : ConfigureEnv) (s : SharedState)
    (isSynthetic : Bool) (newInnerPosition : Int × Int)
    (newSurfaceSize : Nat × Nat) :
    ((∃ p, WEvent.moved p ∈
          (configure_notify env s isSynthetic newInnerPosition newSurfaceSize).2) ↔
        (isSynthetic = true ∧ s.innerPosition ≠ some newInnerPosition)) ∧
      (WEvent.surfaceResized newSurfaceSize ∈
          (configure_notify env s isSynthetic newInnerPosition newSurfaceSize).2 ↔
        (s.size ≠ some newSurfaceSize ∨
          dpiForcedResize env s newSurfaceSize isSynthetic)) := by
  unfold configure_notify maybe_change dpiForcedResize
  cases isSynthetic with
  | false =>
    by_cases hsz : s.size = some newSurfaceSize <;>
      by_cases hrp : s.innerPositionRelParent = some newInnerPosition <;>
        rcases hpos : s.position with _ | p <;>
          simp_all [inner_pos_to_outer]
  | true =>
    by_cases hip : s.innerPosition = some newInnerPosition <;>
      by_cases hsz : s.size = some newSurfaceSize <;>
        rcases hpos : s.position with _ | p <;>
          rcases hm : env.monitor with _ | sf <;>
            simp_all [inner_pos_to_outer] <;>
              split_ifs <;> simp_all

end WinitX11
